import Mathlib

/-!
Verification development for the semantic-decoding layer of a reader for
IDA Pro database files (`idb/analysis.py`).

The Python source is shallowly embedded: byte buffers are `List Nat`
(each element a byte value), fallible computations return `Option` or
`Except String` (the string names the Python exception raised), and
machine integers are `Nat`/`Int` (the decoders only ever assemble values
by shifts and adds of byte values, so no wrap-around is involved).
Lazy generators are embedded as the finite list of values they yield,
or — where a generator is genuinely unbounded — as the function from
iteration number to the yielded value.
-/

deriving instance DecidableEq for Except

/-- Embeds `is_flag_set(flags, flag)`: `flags & flag == flag`. -/
def is_flag_set (flags flag : Nat) : Bool :=
  flags &&& flag == flag

/-- Convert a Python indexing result to the `IndexError` it raises when absent. -/
def orIndexError {α : Type} : Option α → Except String α
  | none => Except.error "IndexError"
  | some a => Except.ok a

/-- Embeds `unpack_dd(buf, offset)` (analysis.py lines 84-116): decode one
IDA variable-length dword from `buf` at `offset`, returning the value and the
number of bytes consumed, or `none` when the bounds of the region are
exceeded (Python raises `IndexError` on `buf[i]`). -/
def unpack_dd (buf : List Nat) (offset : Nat) : Option (Nat × Nat) :=
  let b := buf.drop offset
  match b.get? 0 with
  | none => none
  | some header =>
    if header &&& 0x80 = 0 then
      some (header, 1)
    else if header &&& 0xC0 ≠ 0xC0 then
      match b.get? 1 with
      | none => none
      | some b1 => some (((header &&& 0x7F) <<< 8) + b1, 2)
    else if header &&& 0xE0 = 0xE0 then
      match b.get? 1, b.get? 2, b.get? 3, b.get? 4 with
      | some b1, some b2, some b3, some b4 =>
        some ((((b1 <<< 8) + b2) <<< 16) + ((b3 <<< 8) + b4), 5)
      | _, _, _, _ => none
    else
      match b.get? 1, b.get? 2, b.get? 3 with
      | some b1, some b2, some b3 =>
        some (((((header &&& 0x3F) <<< 8) + b1) <<< 16) + ((b2 <<< 8) + b3), 4)
      | _, _, _ => none

/-- Embeds `unpack_dw(buf, offset)` (analysis.py lines 119-132). -/
def unpack_dw (buf : List Nat) (offset : Nat) : Option (Nat × Nat) :=
  let b := buf.drop offset
  match b.get? 0 with
  | none => none
  | some header =>
    if header &&& 0x80 = 0 then
      some (header, 1)
    else if header &&& 0xC0 ≠ 0xC0 then
      match b.get? 1 with
      | none => none
      | some b1 => some (((header <<< 8) + b1) &&& 0x7FFF, 2)
    else
      match b.get? 1, b.get? 2 with
      | some b1, some b2 => some ((b1 <<< 8) + b2, 3)
      | _, _ => none

/-- A Python runtime value as far as `unpack_dq` manipulates one: either an
int or the `(value, bytes_consumed)` tuple that `unpack_dd` returns. -/
inductive PyVal where
  | int : Nat → PyVal
  | tup : Nat → Nat → PyVal
deriving DecidableEq, Repr

/-- Python `v << k`: defined on ints, a `TypeError` on a tuple. -/
def pyShiftL : PyVal → Nat → Except String PyVal
  | PyVal.int n, k => Except.ok (PyVal.int (n <<< k))
  | PyVal.tup _ _, _ => Except.error "TypeError"

/-- Python `a + b` as reachable from `unpack_dq`: int,int adds; an int,tuple
mix is a `TypeError`. -/
def pyAdd : PyVal → PyVal → Except String PyVal
  | PyVal.int a, PyVal.int b => Except.ok (PyVal.int (a + b))
  | _, _ => Except.error "TypeError"

/-- Embeds `unpack_dq(buf, offset)` (analysis.py lines 135-145) exactly as
written: `dw1 = unpack_dd(buf)` and `dw2 = unpack_dd(buf, offset=0x4)` bind
the whole `(value, size)` tuples, and the final line computes
`(dw1 << 32) + dw2` on those tuples. -/
def unpack_dq (buf : List Nat) (offset : Nat) : Except String PyVal := do
  let b := buf.drop offset
  let dw1 ← match unpack_dd b 0 with
    | none => Except.error "IndexError"
    | some p => Except.ok (PyVal.tup p.1 p.2)
  let dw2 ← match unpack_dd b 4 with
    | none => Except.error "IndexError"
    | some p => Except.ok (PyVal.tup p.1 p.2)
  let s ← pyShiftL dw1 32
  pyAdd s dw2

/-- Follows the spec's words, for comparison with `unpack_dq`: read one dd at
offset 0 for the high half and one dd at offset 4 for the low half, and
combine them as `(high << 32) + low`. -/
def unpack_dq_spec (buf : List Nat) (offset : Nat) : Option Nat := do
  let b := buf.drop offset
  let (hi, _) ← unpack_dd b 0
  let (lo, _) ← unpack_dd b 4
  pure ((hi <<< 32) + lo)

/-- Loop of `unpack_dds` (analysis.py lines 148-153): decode dd values from
successive offsets while `offset < len(buf)`.  The `fuel` argument bounds the
iteration count; since every dd consumes at least one byte, `buf.length`
iterations always suffice, so the fuel-exhaustion branch is unreachable from
`unpack_dds` below. -/
def unpack_dds_go (buf : List Nat) : Nat → Nat → Except String (List Nat)
  | _, 0 => Except.ok []
  | offset, fuel + 1 =>
    if offset < buf.length then
      match unpack_dd buf offset with
      | none => Except.error "IndexError"
      | some (v, size) =>
        match unpack_dds_go buf (offset + size) fuel with
        | Except.error e => Except.error e
        | Except.ok vs => Except.ok (v :: vs)
    else
      Except.ok []

/-- Embeds `unpack_dds(buf)`: the finite list of dd values the generator
yields (an `IndexError` mid-decode propagates to the consumer). -/
def unpack_dds (buf : List Nat) : Except String (List Nat) :=
  unpack_dds_go buf 0 buf.length

/-- The database facts that index classification consults.
Modelled from the spec: `wordsize` is the database's address word size in
bytes, and `hasSegment idx` models the storage layer's `id1.get_segment`
lookup (not part of the supplied source): per the spec's contract, it
indicates whether a numeric value falls within a defined segment, a lookup
failure meaning "not an address". -/
structure ClassDB where
  wordsize : Nat
  hasSegment : Nat → Bool

/-- Embeds `_Analysis._is_address` (analysis.py lines 190-198): the index is
an address iff the segment lookup succeeds. -/
def is_address (db : ClassDB) (index : Nat) : Bool :=
  db.hasSegment index

/-- Embeds `_Analysis._is_node` (analysis.py lines 200-209): top byte all
ones for the database's word width; any other word size raises
`RuntimeError`. -/
def is_node (db : ClassDB) (index : Nat) : Except String Bool :=
  if db.wordsize = 4 then
    Except.ok (index &&& 0xFF000000 == 0xFF000000)
  else if db.wordsize = 8 then
    Except.ok (index &&& 0xFF00000000000000 == 0xFF00000000000000)
  else
    Except.error "RuntimeError"

/-- Embeds `_Analysis._is_number` (analysis.py lines 211-215):
`(not _is_address(index)) and (not _is_node(index))`, with Python's
short-circuit: when the index is an address, `_is_node` is never called. -/
def is_number (db : ClassDB) (index : Nat) : Except String Bool :=
  if is_address db index then
    Except.ok false
  else
    match is_node db index with
    | Except.error e => Except.error e
    | Except.ok n => Except.ok (!n)

/-- The `func_t.FUNC_TAIL` flag bit. -/
def FUNC_TAIL : Nat := 0x00008000

/-- The optional-field decode loop inside `func_t.get_values`
(analysis.py lines 444-481): attempt a fixed sequence of decodes (`true` for
`unpack_dd`, `false` for `unpack_dw`) from `offset`, appending each decoded
value; the first `IndexError` stops the loop silently, keeping the values
decoded so far (the `except IndexError: pass` / `finally: return vals`). -/
def try_decode_seq (buf : List Nat) (offset : Nat) : List Bool → List Nat
  | [] => []
  | d :: rest =>
    match (if d then unpack_dd buf offset else unpack_dw buf offset) with
    | none => []
    | some (v, size) => v :: try_decode_seq buf (offset + size) rest

/-- Embeds `func_t.get_values` (analysis.py lines 426-483).  The three
mandatory decodes (start, size, flags) happen before the `try:` block, so an
`IndexError` there propagates; the optional tail of decodes — dd, dd, dw,
dd, dw when FUNC_TAIL is clear, dd, dw when it is set — tolerates
truncation. -/
def func_t_get_values (buf : List Nat) : Except String (List Nat) :=
  match unpack_dd buf 0 with
  | none => Except.error "IndexError"
  | some (v0, s0) =>
    match unpack_dd buf s0 with
    | none => Except.error "IndexError"
    | some (v1, s1) =>
      match unpack_dw buf (s0 + s1) with
      | none => Except.error "IndexError"
      | some (v2, s2) =>
        if ¬ (is_flag_set v2 FUNC_TAIL = true) then
          Except.ok ([v0, v1, v2] ++
            try_decode_seq buf (s0 + s1 + s2) [true, true, false, true, false])
        else
          Except.ok ([v0, v1, v2] ++
            try_decode_seq buf (s0 + s1 + s2) [true, false])

/-- The attributes a `func_t` instance carries after `__init__`.  Optional
attributes keep their default `None` when the corresponding value was never
decoded. -/
structure func_t where
  startEA : Nat
  endEA : Nat
  flags : Nat
  frame : Option Nat
  frsize : Option Nat
  frregs : Option Nat
  argsize : Option Nat
  fpd : Option Nat
  color : Option Nat
  owner : Option Int
  refqty : Option Nat
deriving DecidableEq, Repr

/-- Embeds `func_t.__init__` (analysis.py lines 392-424).  In the non-tail
branch the assignments `frame = vals[3]` … `color = vals[8]` run inside
`try: … except IndexError: pass`, so each attribute gets `vals[i]` when that
index exists and stays `None` otherwise.  In the tail branch the accesses
`vals[3]` and `vals[4]` are NOT guarded, so a missing value raises
`IndexError` out of the constructor. -/
def func_t_init (buf : List Nat) : Except String func_t :=
  match func_t_get_values buf with
  | Except.error e => Except.error e
  | Except.ok vals =>
    match vals.get? 0, vals.get? 1, vals.get? 2 with
    | some startEA, some size, some flags =>
      if ¬ (is_flag_set flags FUNC_TAIL = true) then
        Except.ok { startEA := startEA, endEA := startEA + size, flags := flags,
                    frame := vals.get? 3, frsize := vals.get? 4,
                    frregs := vals.get? 5, argsize := vals.get? 6,
                    fpd := vals.get? 7, color := vals.get? 8,
                    owner := none, refqty := none }
      else
        match vals.get? 3, vals.get? 4 with
        | some d, some r =>
          Except.ok { startEA := startEA, endEA := startEA + size,
                      flags := flags, frame := none, frsize := none,
                      frregs := none, argsize := none, fpd := none,
                      color := none,
                      owner := some ((startEA : Int) - (d : Int)),
                      refqty := some r }
        | _, _ => Except.error "IndexError"
    | _, _, _ => Except.error "IndexError"

/-- Loop of the generator branch of `chunks(l, n)` (analysis.py lines
652-657): repeatedly take `n` items via `islice`; an empty slice ends the
generator.  Fuel-based: when `n ≥ 1` at most `l.length` iterations occur, and
`islice` of `n = 0` yields an empty list, ending the loop at once, so the
fuel-exhaustion branch is unreachable from `chunks_gen` below. -/
def chunks_gen_go {α : Type} (n : Nat) : List α → Nat → List (List α)
  | _, 0 => []
  | l, fuel + 1 =>
    if n = 0 then []
    else
      match l with
      | [] => []
      | _ :: _ => l.take n :: chunks_gen_go n (l.drop n) fuel

/-- Embeds the generator branch of `chunks(l, n)`: the list of chunks yielded
when `l` is a (finite) generator. -/
def chunks_gen {α : Type} (l : List α) (n : Nat) : List (List α) :=
  chunks_gen_go n l l.length

/-- Embeds the list branch of `chunks(l, n)` (analysis.py lines 658-666):
`i`-th yielded value of the loop `while True: v = l[i:i+n]; yield v; i += n`.
Python slicing out of range returns an empty list and never raises
`IndexError`, so the loop yields for every iteration number and never
returns: this function is total over the iteration number `i`. -/
def chunks_list_yield {α : Type} (l : List α) (n i : Nat) : List α :=
  (l.drop (i * n)).take n

/-- Embeds `pairs(l)` (analysis.py lines 669-670) on the generator path used
by this module: `chunks(l, 2)`. -/
def pairs_gen {α : Type} (l : List α) : List (List α) :=
  chunks_gen l 2

/-- Tuple-unpacking of each chunk into `(delta, value)` as done by
`for delta, length in pairs(...)`: a chunk whose length is not exactly 2
raises `ValueError`. -/
def as_int_pairs : List (List Nat) → Except String (List (Nat × Nat))
  | [] => Except.ok []
  | [a, b] :: rest =>
    match as_int_pairs rest with
    | Except.error e => Except.error e
    | Except.ok ps => Except.ok ((a, b) :: ps)
  | _ => Except.error "ValueError"

/-- The `STRUCT_FLAGS.SF_FRAME` bit. -/
def SF_FRAME : Nat := 0x00000040

/-- The member loop of `Struct.get_members` (analysis.py lines 627-644),
returning the node ids of the yielded StructMembers.  `nodeidVar` threads the
Python local variable `nodeid_offset`: `none` while it is still unbound.  In
the 8-byte-word branch the source computes
`nodeid_offset = nodeid_offseta | (nodeid_offset << 32)`, reading
`nodeid_offset` itself (not `nodeid_offsetb`) on the right-hand side, which
raises `UnboundLocalError` on the first iteration.  Tuple-unpacking a slice
of the wrong length raises `ValueError`; a word size other than 4 or 8
raises `RuntimeError`. -/
def get_members_loop (nodebase wordsize : Nat) (vals : List Nat) :
    Nat → Nat → Option Nat → Except String (List Nat)
  | 0, _, _ => Except.ok []
  | count + 1, offset, nodeidVar =>
    if wordsize = 4 then
      match (vals.drop offset).take 5 with
      | [nodeid_offset, _, _, _, _] =>
        match get_members_loop nodebase wordsize vals count (offset + 5)
            (some nodeid_offset) with
        | Except.error e => Except.error e
        | Except.ok rest => Except.ok ((nodebase + nodeid_offset) :: rest)
      | _ => Except.error "ValueError"
    else if wordsize = 8 then
      match (vals.drop offset).take 8 with
      | [nodeid_offseta, _, _, _, _, _, _, _] =>
        match nodeidVar with
        | none => Except.error "UnboundLocalError"
        | some prev =>
          let nodeid_offset := nodeid_offseta ||| (prev <<< 32)
          match get_members_loop nodebase wordsize vals count (offset + 8)
              (some nodeid_offset) with
          | Except.error e => Except.error e
          | Except.ok rest => Except.ok ((nodebase + nodeid_offset) :: rest)
      | _ => Except.error "ValueError"
    else
      Except.error "RuntimeError"

/-- Embeds `Struct.get_members` (analysis.py lines 618-644) applied to the
raw bytes stored at tag M index 0, returning the member node ids:
decode the packed array, require `vals[0] & SF_FRAME` nonzero, take
`vals[1]` as the member count, then consume fixed-size groups per member. -/
def get_members (wordsize nodebase : Nat) (buf : List Nat) :
    Except String (List Nat) := do
  let vals ← unpack_dds buf
  let v0 ← orIndexError (vals.get? 0)
  if v0 &&& SF_FRAME = 0 then
    Except.error "RuntimeError"
  else do
    let count ← orIndexError (vals.get? 1)
    get_members_loop nodebase wordsize vals count 2 none

/-- Decode one stack-change-point encoded change (analysis.py lines
770-773): low bit set means `change >> 1`, clear means `-(change >> 1)`. -/
def decode_sp_change (change : Nat) : Int :=
  if change &&& 1 = 1 then ((change >>> 1 : Nat) : Int)
  else -((change >>> 1 : Nat) : Int)

/-- The loop of `Function.get_stack_change_points` (analysis.py lines
768-775) over the decoded `(delta, change)` pairs: the running offset starts
at the function's node id and accumulates each delta; each yielded point is
`(offset, decoded change)`. -/
def stack_change_points (offset : Nat) : List (Nat × Nat) → List (Nat × Int)
  | [] => []
  | (delta, change) :: rest =>
    (offset + delta, decode_sp_change change) ::
      stack_change_points (offset + delta) rest

/-- Embeds `Function.get_stack_change_points` applied to the raw bytes
stored at tag S index 0x1000 for a function whose node id is `fva`. -/
def get_stack_change_points (fva : Nat) (buf : List Nat) :
    Except String (List (Nat × Int)) := do
  let vals ← unpack_dds buf
  let ps ← as_int_pairs (pairs_gen vals)
  Except.ok (stack_change_points fva ps)

/-- One entry of `netnode.charentries(tag)`: a single-character-keyed entry,
with `index` its parsed key index and `value` its one-byte xref type code. -/
structure CharEntry where
  index : Nat
  value : Nat
deriving DecidableEq, Repr

/-- Python truthiness of the optional-int arguments `src`/`dst`: `None` and
`0` are falsy. -/
def py_truthy_int : Option Nat → Bool
  | none => false
  | some n => !(n == 0)

/-- Python truthiness of the optional-collection argument `types`: `None`
and an empty collection are falsy. -/
def py_truthy_list : Option (List Nat) → Bool
  | none => false
  | some ts => !ts.isEmpty

/-- The charentries tag for code references to an address. -/
def TAG_CREF_TO : Char := 'X'

/-- The charentries tag for code references from an address. -/
def TAG_CREF_FROM : Char := 'x'

/-- The charentries tag for data references to an address. -/
def TAG_DREF_TO : Char := 'D'

/-- The charentries tag for data references from an address. -/
def TAG_DREF_FROM : Char := 'd'

/-- Embeds `_get_xrefs(db, tag, src, dst, types)` (analysis.py lines
781-794).  `charentries tag node` models `Netnode(db, node).charentries(tag)`
(storage layer; `Except.error ()` is its `KeyError`).  The guard
`if not src and not dst` uses Python truthiness; `src or dst` picks the
first truthy argument; a `KeyError` while enumerating yields the empty
sequence; each kept entry becomes the Xref triple `(src, dst, type)` with
the missing endpoint filled from the entry's key. -/
def get_xrefs (charentries : Char → Nat → Except Unit (List CharEntry))
    (tag : Char) (src dst : Option Nat) (types : Option (List Nat)) :
    Except String (List (Nat × Nat × Nat)) :=
  if ¬ (py_truthy_int src = true) ∧ ¬ (py_truthy_int dst = true) then
    Except.error "ValueError"
  else
    let node := if py_truthy_int src then src.getD 0 else dst.getD 0
    match charentries tag node with
    | Except.error _ => Except.ok []
    | Except.ok entries =>
      Except.ok ((entries.filter (fun e =>
          (py_truthy_list types && (types.getD []).contains e.value) ||
          !py_truthy_list types)).map (fun e =>
        if py_truthy_int src then (src.getD 0, e.index, e.value)
        else (e.index, dst.getD 0, e.value)))

/-- Embeds `get_crefs_to(db, ea, types)` (analysis.py lines 797-809). -/
def get_crefs_to (charentries : Char → Nat → Except Unit (List CharEntry))
    (ea : Nat) (types : Option (List Nat)) :
    Except String (List (Nat × Nat × Nat)) :=
  get_xrefs charentries TAG_CREF_TO none (some ea) types

/-- Embeds `get_crefs_from(db, ea, types)` (analysis.py lines 812-824). -/
def get_crefs_from (charentries : Char → Nat → Except Unit (List CharEntry))
    (ea : Nat) (types : Option (List Nat)) :
    Except String (List (Nat × Nat × Nat)) :=
  get_xrefs charentries TAG_CREF_FROM (some ea) none types

/-- Embeds `get_drefs_to(db, ea, types)` (analysis.py lines 827-839). -/
def get_drefs_to (charentries : Char → Nat → Except Unit (List CharEntry))
    (ea : Nat) (types : Option (List Nat)) :
    Except String (List (Nat × Nat × Nat)) :=
  get_xrefs charentries TAG_DREF_TO none (some ea) types

/-- Embeds `get_drefs_from(db, ea, types)` (analysis.py lines 842-854). -/
def get_drefs_from (charentries : Char → Nat → Except Unit (List CharEntry))
    (ea : Nat) (types : Option (List Nat)) :
    Except String (List (Nat × Nat × Nat)) :=
  get_xrefs charentries TAG_DREF_FROM (some ea) none types

/-- Auxiliary for C8: `stack_change_points` yields one point per pair. -/
theorem stack_change_points_length (fva : Nat) (ps : List (Nat × Nat)) :
    (stack_change_points fva ps).length = ps.length := by
  induction ps generalizing fva with
  | nil => rfl
  | cons p rest ih =>
    obtain ⟨d, c⟩ := p
    simp [stack_change_points, ih]

/-- Auxiliary for C8: the i-th yielded point in closed form. -/
theorem stack_change_points_get_eq (ps : List (Nat × Nat)) : ∀ (fva i : Nat)
    (h1 : i < ps.length) (h2 : i < (stack_change_points fva ps).length),
    (stack_change_points fva ps).get ⟨i, h2⟩ =
      (fva + ((ps.take (i + 1)).map Prod.fst).sum,
        decode_sp_change (ps.get ⟨i, h1⟩).2) := by
  induction ps with
  | nil => intro fva i h1 h2; simp at h1
  | cons p rest ih =>
    obtain ⟨d, c⟩ := p
    intro fva i h1 h2
    cases i with
    | zero => simp [stack_change_points]
    | succ j =>
      have h1r : j < rest.length := by simpa using h1
      have h2r : j < (stack_change_points (fva + d) rest).length := by
        rw [stack_change_points_length]; exact h1r
      have hrec := ih (fva + d) j h1r h2r
      simp only [stack_change_points, List.get_cons_succ, List.take_succ_cons,
        List.map_cons, List.sum_cons, ← Nat.add_assoc]
      exact hrec

/-- C8: for every function start address and every decoded
(delta, encoded change) pair sequence, the yielded stack change points
accumulate the deltas starting from the start address, and the change is
`encoded >> 1` when the low bit is set and `-(encoded >> 1)` otherwise;
in particular encoded 7 decodes to +3 and encoded 6 to -3. -/
theorem c8_stack_change_points_spec (fva : Nat) (ps : List (Nat × Nat)) :
    (stack_change_points fva ps).length = ps.length ∧
    (∀ (i : Nat) (h1 : i < ps.length)
        (h2 : i < (stack_change_points fva ps).length),
      (stack_change_points fva ps).get ⟨i, h2⟩ =
        (fva + ((ps.take (i + 1)).map Prod.fst).sum,
          decode_sp_change (ps.get ⟨i, h1⟩).2)) ∧
    decode_sp_change 7 = 3 ∧ decode_sp_change 6 = -3 :=
  ⟨stack_change_points_length fva ps,
   fun i h1 h2 => stack_change_points_get_eq ps fva i h1 h2,
   by decide, by decide⟩

/-- C8 witness: at function start 0x400000 with pairs (0x10, 7), (0x20, 6),
the second point is (0x400030, -3). -/
theorem c8_stack_change_points_witness :
    (stack_change_points 0x400000 [(0x10, 7), (0x20, 6)]).get ⟨1, by decide⟩ =
      (0x400030, -3) :=
  ((c8_stack_change_points_spec 0x400000 [(0x10, 7), (0x20, 6)]).2.1 1
    (by decide) (by decide)).trans (by decide)

/-- C1 counterexample: for a 4-byte-word database one of whose segments
contains the index 0xFF000000, that index satisfies the node test AND the
address test at once, and is classified under both ADDRESSES and NODES;
the claimed exclusivity (a NODES value has `_is_address` false) fails. -/
theorem c1_classification_overlap :
    is_node (ClassDB.mk 4 (fun x => x == 0xFF000000)) 0xFF000000 =
      Except.ok true ∧
    is_address (ClassDB.mk 4 (fun x => x == 0xFF000000)) 0xFF000000 = true ∧
    is_number (ClassDB.mk 4 (fun x => x == 0xFF000000)) 0xFF000000 =
      Except.ok false := by
  refine ⟨by decide, by decide, by decide⟩

/-- C1 amended: every index falls into at least one of ADDRESSES, NODES,
NUMBERS, and NUMBERS is exactly "neither address nor node", hence disjoint
from both; but ADDRESSES and NODES may overlap and no priority between the
two tests exists in the code. -/
theorem c1_classification_amended (db : ClassDB) (index : Nat) (b : Bool)
    (h : is_node db index = Except.ok b) :
    is_number db index = Except.ok (!is_address db index && !b) ∧
    (is_address db index = true ∨ b = true ∨
      (!is_address db index && !b) = true) := by
  constructor
  · unfold is_number
    cases ha : is_address db index with
    | true => simp [ha, h]
    | false => simp [ha, h]
  · cases ha : is_address db index <;> cases b <;> simp

/-- C1 witness: a database with no segments and word size 4 classifies
index 5 as a number, not an address and not a node. -/
theorem c1_classification_amended_witness :
    is_number (ClassDB.mk 4 (fun _ => false)) 5 =
      Except.ok (!is_address (ClassDB.mk 4 (fun _ => false)) 5 && !false) ∧
    (is_address (ClassDB.mk 4 (fun _ => false)) 5 = true ∨ false = true ∨
      (!is_address (ClassDB.mk 4 (fun _ => false)) 5 && !false) = true) :=
  c1_classification_amended (ClassDB.mk 4 (fun _ => false)) 5 false (by decide)

/-- C2: on the buffer 00 00 C0 80 00 — flags decode to 0x8000, FUNC_TAIL
set, buffer exhausted before the owner delta — `get_values` tolerates the
truncation (its whole tail branch sits inside try/except IndexError), but
`func_t.__init__` then reads `vals[3]` and `vals[4]` unguarded and raises
IndexError, contradicting the claimed truncation tolerance. -/
theorem c2_tail_truncation_raises :
    func_t_get_values [0x00, 0x00, 0xC0, 0x80, 0x00] =
      Except.ok [0, 0, 0x8000] ∧
    is_flag_set 0x8000 FUNC_TAIL = true ∧
    func_t_init [0x00, 0x00, 0xC0, 0x80, 0x00] = Except.error "IndexError" := by
  refine ⟨by decide, by decide, by decide⟩

/-- C3: `unpack_dd` decodes every valid encoding at the documented width:
top bit clear consumes 1 byte yielding the byte; top bits 10 consume 2
yielding ((b0 and 0x7F) shl 8) + b1; top bits 111 consume 5 combining
high and low 16-bit halves; the remaining top-bits-11 case consumes 4;
and the boundary values 0x00, 0x7F decode from 1-byte encodings and 0x80,
0x3FFF from 2-byte encodings. -/
theorem c3_unpack_dd_cases :
    (∀ (b0 : Nat) (rest : List Nat), b0 &&& 0x80 = 0 →
      unpack_dd (b0 :: rest) 0 = some (b0, 1)) ∧
    (∀ (b0 b1 : Nat) (rest : List Nat), b0 &&& 0x80 ≠ 0 →
      b0 &&& 0xC0 ≠ 0xC0 →
      unpack_dd (b0 :: b1 :: rest) 0 =
        some (((b0 &&& 0x7F) <<< 8) + b1, 2)) ∧
    (∀ (b0 b1 b2 b3 b4 : Nat) (rest : List Nat), b0 &&& 0xE0 = 0xE0 →
      unpack_dd (b0 :: b1 :: b2 :: b3 :: b4 :: rest) 0 =
        some ((((b1 <<< 8) + b2) <<< 16) + ((b3 <<< 8) + b4), 5)) ∧
    (∀ (b0 b1 b2 b3 : Nat) (rest : List Nat), b0 &&& 0xC0 = 0xC0 →
      b0 &&& 0xE0 ≠ 0xE0 →
      unpack_dd (b0 :: b1 :: b2 :: b3 :: rest) 0 =
        some (((((b0 &&& 0x3F) <<< 8) + b1) <<< 16) + ((b2 <<< 8) + b3), 4)) ∧
    unpack_dd [0x00] 0 = some (0x00, 1) ∧
    unpack_dd [0x7F] 0 = some (0x7F, 1) ∧
    unpack_dd [0x80, 0x80] 0 = some (0x80, 2) ∧
    unpack_dd [0xBF, 0xFF] 0 = some (0x3FFF, 2) := by
  refine ⟨?_, ?_, ?_, ?_, by decide, by decide, by decide, by decide⟩
  · intro b0 rest h
    simp [unpack_dd, h]
  · intro b0 b1 rest h1 h2
    simp [unpack_dd, h1, h2]
  · intro b0 b1 b2 b3 b4 rest h
    have h80 : b0 &&& 0x80 = 0x80 := by
      have hh : b0 &&& (0xE0 &&& 0x80) = 0xE0 &&& 0x80 := by
        rw [← Nat.land_assoc, h]
      simpa using hh
    have hC0 : b0 &&& 0xC0 = 0xC0 := by
      have hh : b0 &&& (0xE0 &&& 0xC0) = 0xE0 &&& 0xC0 := by
        rw [← Nat.land_assoc, h]
      simpa using hh
    simp [unpack_dd, h, h80, hC0]
  · intro b0 b1 b2 b3 rest h1 h2
    have h80 : b0 &&& 0x80 = 0x80 := by
      have hh : b0 &&& (0xC0 &&& 0x80) = 0xC0 &&& 0x80 := by
        rw [← Nat.land_assoc, h1]
      simpa using hh
    simp [unpack_dd, h1, h2, h80]

/-- C3 witness: one concrete decode through each conjunct of the case
theorem. -/
theorem c3_unpack_dd_cases_witness :
    unpack_dd [0x05] 0 = some (5, 1) ∧
    unpack_dd [0x81, 0x02] 0 = some (((0x81 &&& 0x7F) <<< 8) + 0x02, 2) ∧
    unpack_dd [0xE0, 1, 2, 3, 4] 0 =
      some ((((1 <<< 8) + 2) <<< 16) + ((3 <<< 8) + 4), 5) ∧
    unpack_dd [0xC1, 2, 3, 4] 0 =
      some (((((0xC1 &&& 0x3F) <<< 8) + 2) <<< 16) + ((3 <<< 8) + 4), 4) :=
  ⟨c3_unpack_dd_cases.1 0x05 [] (by decide),
   c3_unpack_dd_cases.2.1 0x81 0x02 [] (by decide) (by decide),
   c3_unpack_dd_cases.2.2.1 0xE0 1 2 3 4 [] (by decide),
   c3_unpack_dd_cases.2.2.2.1 0xC1 2 3 4 [] (by decide) (by decide)⟩

/-- C4: `unpack_dq` as written binds the whole (value, size) tuples returned
by `unpack_dd` and then computes `(dw1 << 32) + dw2` on them, raising
TypeError on every buffer; the documented combination (high << 32) + low of
the two decoded values would give 0x100000002 here. -/
theorem c4_unpack_dq_type_error :
    unpack_dq [0x01, 0x00, 0x00, 0x00, 0x02] 0 = Except.error "TypeError" ∧
    unpack_dq_spec [0x01, 0x00, 0x00, 0x00, 0x02] 0 =
      some ((0x01 <<< 32) + 0x02) := by
  refine ⟨by decide, by decide⟩

/-- C5: the list branch of `chunks` yields the consecutive groups but then,
because an out-of-range Python slice returns [] instead of raising
IndexError, keeps yielding empty groups forever instead of terminating;
the generator branch terminates with exactly the groups, and `pairs` is
`chunks` with n = 2. -/
theorem c5_chunks_list_empty_groups :
    chunks_list_yield ([1, 2, 3] : List Nat) 2 0 = [1, 2] ∧
    chunks_list_yield ([1, 2, 3] : List Nat) 2 1 = [3] ∧
    chunks_list_yield ([1, 2, 3] : List Nat) 2 2 = [] ∧
    chunks_list_yield ([1, 2, 3] : List Nat) 2 3 = [] ∧
    chunks_gen ([1, 2, 3] : List Nat) 2 = [[1, 2], [3]] ∧
    pairs_gen ([1, 2, 3] : List Nat) = chunks_gen ([1, 2, 3] : List Nat) 2 := by
  refine ⟨by decide, by decide, by decide, by decide, by decide, by decide⟩

/-- C6: on an 8-byte-word database, a well-formed member array (SF_FRAME
set, count 1, eight member values) makes `Struct.get_members` raise
UnboundLocalError: the high-half combination reads the local
`nodeid_offset` before its first assignment (instead of `nodeid_offsetb`).
The 4-byte-word path of the same loop works as documented. -/
theorem c6_members_unbound_local :
    unpack_dds [0x40, 0x01, 1, 2, 3, 4, 5, 6, 7, 8] =
      Except.ok [0x40, 1, 1, 2, 3, 4, 5, 6, 7, 8] ∧
    get_members 8 0x1000 [0x40, 0x01, 1, 2, 3, 4, 5, 6, 7, 8] =
      Except.error "UnboundLocalError" ∧
    get_members 4 0x1000 [0x40, 0x01, 1, 2, 3, 4, 5] =
      Except.ok [0x1000 + 1] := by
  refine ⟨by decide, by decide, by decide⟩

/-- C7 counterexample: a non-tail buffer with all optional fields present
(eight single-byte values).  The fifth optional decoded value is 8, but the
record's color attribute is None — the value is stored in fpd instead. -/
theorem c7_color_counterexample :
    func_t_get_values [1, 2, 3, 4, 5, 6, 7, 8] =
      Except.ok [1, 2, 3, 4, 5, 6, 7, 8] ∧
    (func_t_init [1, 2, 3, 4, 5, 6, 7, 8]).map func_t.color = Except.ok none ∧
    ¬ ((func_t_init [1, 2, 3, 4, 5, 6, 7, 8]).map func_t.color =
        Except.ok (some 8)) ∧
    (func_t_init [1, 2, 3, 4, 5, 6, 7, 8]).map func_t.fpd =
      Except.ok (some 8) := by
  refine ⟨by decide, by decide, by decide, by decide⟩

/-- C7 amended: for every non-tail func_t record whose buffer contains all
five documented optional fields, the fifth optional decoded value (the dw
after argsize) is stored in the record's fpd attribute, and color is left
None (it is read from a ninth value that get_values never produces). -/
theorem c7_fpd_amended (buf : List Nat) (a0 a1 a2 a3 a4 a5 a6 a7 : Nat)
    (hv : func_t_get_values buf = Except.ok [a0, a1, a2, a3, a4, a5, a6, a7])
    (hnt : is_flag_set a2 FUNC_TAIL = false) :
    func_t_init buf = Except.ok
      { startEA := a0, endEA := a0 + a1, flags := a2,
        frame := some a3, frsize := some a4, frregs := some a5,
        argsize := some a6, fpd := some a7, color := none,
        owner := none, refqty := none } := by
  unfold func_t_init
  rw [hv]
  simp [orIndexError, hnt]

/-- C7 witness: the eight-byte buffer 01..08 decodes to a non-tail record
with fpd = 8 and color = None. -/
theorem c7_fpd_amended_witness :
    func_t_init [1, 2, 3, 4, 5, 6, 7, 8] = Except.ok
      { startEA := 1, endEA := 1 + 2, flags := 3,
        frame := some 4, frsize := some 5, frregs := some 6,
        argsize := some 7, fpd := some 8, color := none,
        owner := none, refqty := none } :=
  c7_fpd_amended [1, 2, 3, 4, 5, 6, 7, 8] 1 2 3 4 5 6 7 8
    (by decide) (by decide)

/-- C9 counterexample: with an explicitly supplied but empty collection of
acceptable type codes, the shared routine yields an entry whose type code 1
is not in the collection — Python truthiness treats the empty collection
like an absent one, so no filtering happens. -/
theorem c9_empty_types_counterexample :
    get_xrefs (fun _ _ => Except.ok [CharEntry.mk 5 1]) TAG_CREF_TO none
      (some 0x10) (some []) = Except.ok [(5, 0x10, 1)] ∧
    ¬ ((1 : Nat) ∈ ([] : List Nat)) := by
  refine ⟨by decide, by decide⟩

/-- C9 amended: the shared routine raises ValueError with neither source nor
destination; a missing node (KeyError from charentries) gives the empty
sequence; a supplied NON-EMPTY collection of type codes keeps exactly the
entries whose code is in the collection; an absent (or empty) collection
keeps all entries. -/
theorem c9_xrefs_amended
    (db1 db2 : Char → Nat → Except Unit (List CharEntry)) (tag : Char)
    (ea : Nat) (hea : ea ≠ 0) (ts : List Nat) (hts : ts ≠ [])
    (entries : List CharEntry) (types0 : Option (List Nat))
    (herr : db1 tag ea = Except.error ())
    (hok : db2 tag ea = Except.ok entries) :
    get_xrefs db1 tag none none types0 = Except.error "ValueError" ∧
    get_xrefs db1 tag none (some ea) types0 = Except.ok [] ∧
    get_xrefs db2 tag none (some ea) (some ts) =
      Except.ok ((entries.filter (fun e => ts.contains e.value)).map
        (fun e => (e.index, ea, e.value))) ∧
    get_xrefs db2 tag none (some ea) none =
      Except.ok (entries.map (fun e => (e.index, ea, e.value))) := by
  have hempty : ts.isEmpty = false := by
    cases ts with
    | nil => exact absurd rfl hts
    | cons a l => rfl
  refine ⟨?_, ?_, ?_, ?_⟩
  · simp [get_xrefs, py_truthy_int]
  · simp [get_xrefs, py_truthy_int, hea, herr]
  · simp [get_xrefs, py_truthy_int, py_truthy_list, hea, hok, hempty]
  · simp [get_xrefs, py_truthy_int, py_truthy_list, hea, hok]

/-- C9 witness: the amended theorem at a node with one entry of type 1,
with the filter [1] and with no filter. -/
theorem c9_xrefs_amended_witness :
    get_xrefs (fun _ _ => Except.error ()) TAG_CREF_TO none none none =
      Except.error "ValueError" ∧
    get_xrefs (fun _ _ => Except.error ()) TAG_CREF_TO none (some 0x10) none =
      Except.ok [] ∧
    get_xrefs (fun _ _ => Except.ok [CharEntry.mk 5 1]) TAG_CREF_TO none
      (some 0x10) (some [1]) =
      Except.ok (([CharEntry.mk 5 1].filter
        (fun e => ([1] : List Nat).contains e.value)).map
        (fun e => (e.index, 0x10, e.value))) ∧
    get_xrefs (fun _ _ => Except.ok [CharEntry.mk 5 1]) TAG_CREF_TO none
      (some 0x10) none =
      Except.ok ([CharEntry.mk 5 1].map (fun e => (e.index, 0x10, e.value))) :=
  c9_xrefs_amended (fun _ _ => Except.error ())
    (fun _ _ => Except.ok [CharEntry.mk 5 1]) TAG_CREF_TO 0x10 (by decide)
    [1] (by decide) [CharEntry.mk 5 1] none rfl rfl

/-- C10: each of the four cross-reference queries called with effective
address 0 raises the same ValueError as supplying no address at all: the
guard tests Python truthiness, and the int 0 is falsy. -/
theorem c10_xrefs_zero_ea
    (charentries : Char → Nat → Except Unit (List CharEntry))
    (types : Option (List Nat)) :
    get_crefs_to charentries 0 types = Except.error "ValueError" ∧
    get_crefs_from charentries 0 types = Except.error "ValueError" ∧
    get_drefs_to charentries 0 types = Except.error "ValueError" ∧
    get_drefs_from charentries 0 types = Except.error "ValueError" ∧
    get_xrefs charentries TAG_CREF_TO none none types =
      Except.error "ValueError" :=
  ⟨rfl, rfl, rfl, rfl, rfl⟩
